import Mathlib

/-!
Chat message list: rendering and scroll-to-latest.

A shallow embedding of the three components of `05_proper_react_setup`:

* `components/ChatMessage.jsx`  : `ChatMessage`, one row of the conversation;
* `components/ChatMessages.jsx` : `ChatMessages`, the list view and its scroll effect;
* `App.jsx`                     : the conversation `App` starts with.

JSX is embedded as the tree of elements it evaluates to.  A component is a
function from its props to such a tree.  The hook state of `ChatMessages`
(the ref and the dependency of its effect) is passed explicitly; the container
element is the DOM element, whose `scrollTop` is clamped on assignment, and
the `chatMessages` prop of the effect is an array with an identity.
-/

namespace ChatApp

/-! ## JavaScript values -/

/-- The primitive JavaScript values a prop such as `sender` can hold.
`undefined` is what a missing prop reads as. -/
inductive JSValue where
  | undefined
  | null
  | bool (b : Bool)
  | number (n : Int)
  | string (s : String)
  deriving DecidableEq, Repr

/-- Strict equality `a === b` on primitives: same type and same value. -/
def JSValue.strictEq : JSValue → JSValue → Bool
  | .undefined, .undefined => true
  | .null, .null => true
  | .bool a, .bool b => a == b
  | .number a, .number b => a == b
  | .string a, .string b => a == b
  | _, _ => false

/-! ## Elements -/

/-- The tree a JSX expression evaluates to. `falsy` is the value `false` that
`cond && <el/>` leaves among the children when `cond` is false; React renders
nothing for it. -/
inductive Node where
  | text (s : String)
  | falsy
  | img (src : String) (className : String)
  | div (className : String) (children : List Node)
  deriving Repr

/-- The expression `cond && el` for a boolean `cond`. -/
def andAnd (cond : Bool) (el : Node) : Node :=
  if cond then el else Node.falsy

/-- The `className` of an element, when it has one. -/
def Node.className : Node → Option String
  | .div c _ => some c
  | .img _ c => some c
  | _ => none

/-- The children of an element, in source order. -/
def Node.children : Node → List Node
  | .div _ cs => cs
  | _ => []

/-- An icon is an `img` element. -/
def Node.isIcon : Node → Bool
  | .img _ _ => true
  | _ => false

/-- The text element of a row is the `div` of class `chat-message-text`. -/
def Node.isTextDiv : Node → Bool
  | .div c _ => c == "chat-message-text"
  | _ => false

/-- The `src` of an `img` element. -/
def Node.src : Node → Option String
  | .img s _ => some s
  | _ => none

/-- The children React puts in the DOM: every child but the `false` ones. -/
def Node.domChildren (n : Node) : List Node :=
  n.children.filter (fun c => match c with
    | .falsy => false
    | _ => true)

/-- The icons among the children of a row. -/
def icons (row : Node) : List Node :=
  row.children.filter Node.isIcon

/-- The text elements among the children of a row. -/
def textDivs (row : Node) : List Node :=
  row.children.filter Node.isTextDiv

/-- The icons that come before the text element of a row. -/
def iconsBeforeText (row : Node) : List Node :=
  (row.children.takeWhile (fun c => !c.isTextDiv)).filter Node.isIcon

/-- The icons that come after the text element of a row. -/
def iconsAfterText (row : Node) : List Node :=
  (row.children.dropWhile (fun c => !c.isTextDiv)).filter Node.isIcon

/-! ## `ChatMessage.jsx` -/

/-- The module `import Robotimage from '../assets/robot.png'` binds: the asset
the specifier names. -/
def Robotimage : String := "../assets/robot.png"

/-- The module `import Userimage from '../assets/robot.png'` binds: the asset
the specifier names. -/
def Userimage : String := "../assets/robot.png"

/-- The component `ChatMessage({ message, sender })`. -/
def ChatMessage (message : String) (sender : JSValue) : Node :=
  Node.div
    (if sender.strictEq (.string "user") then "chat-message-user" else "chat-message-robot")
    [ andAnd (sender.strictEq (.string "robot")) (Node.img Robotimage "chat-message-profile"),
      Node.div "chat-message-text" [Node.text message],
      andAnd (sender.strictEq (.string "user")) (Node.img Userimage "chat-message-profile") ]

/-! ## `ChatMessages.jsx` -/

/-- One entry of the `chatMessages` array. -/
structure Message where
  message : String
  sender : JSValue
  id : String
  deriving DecidableEq, Repr

/-- The element `<ChatMessage message=.. sender=.. key=.. />`. -/
structure ChatMessageElement where
  message : String
  sender : JSValue
  key : String
  deriving DecidableEq, Repr

/-- The element `ChatMessages` returns: the container `div`, which carries the
ref, and one `ChatMessage` element per entry. -/
structure ChatMessagesElement where
  className : String
  children : List ChatMessageElement
  deriving DecidableEq, Repr

/-- The value returned by the component `ChatMessages({ chatMessages })`. -/
def ChatMessages (chatMessages : List Message) : ChatMessagesElement :=
  { className := "chat-messages-container ",
    children := chatMessages.map (fun chatMessage =>
      { message := chatMessage.message,
        sender := chatMessage.sender,
        key := chatMessage.id }) }

/-- React renders a `ChatMessage` element by calling the component on its props. -/
def ChatMessageElement.render (e : ChatMessageElement) : Node :=
  ChatMessage e.message e.sender

/-- The rows of the list view: the children of `ChatMessages`, each rendered. -/
def renderedRows (chatMessages : List Message) : List Node :=
  (ChatMessages chatMessages).children.map ChatMessageElement.render

/-- The whole tree of the list view. -/
def renderedContainer (chatMessages : List Message) : Node :=
  Node.div (ChatMessages chatMessages).className (renderedRows chatMessages)

/-! ### The scroll effect -/

/-- The properties of the container element the effect touches, and
`clientHeight`, the height of the viewport, which bounds `scrollTop`. -/
structure ContainerEle where
  scrollTop : Nat
  scrollHeight : Nat
  clientHeight : Nat
  deriving DecidableEq, Repr

/-- The largest scroll position of the element, `scrollHeight - clientHeight`:
there the bottom-most content is in view. -/
def ContainerEle.maxScrollTop (c : ContainerEle) : Nat :=
  c.scrollHeight - c.clientHeight

/-- The assignment `el.scrollTop = v` on a DOM element: the value is stored
clamped to the largest scroll position. -/
def ContainerEle.setScrollTop (c : ContainerEle) (v : Nat) : ContainerEle :=
  { c with scrollTop := min v c.maxScrollTop }

/-- What the effect reads and writes: `chatMessagesRef.current` (`none` is
`null`) and the console. -/
structure EffectEnv where
  current : Option ContainerEle
  console : List String
  deriving DecidableEq, Repr

/-- The body of the effect:
`if (containerEle) { containerEle.scrollTop = containerEle.scrollHeight; console.log("UPDATED") }`. -/
def scrollEffect (env : EffectEnv) : EffectEnv :=
  match env.current with
  | some containerEle =>
      { current := some (containerEle.setScrollTop containerEle.scrollHeight),
        console := env.console ++ ["UPDATED"] }
  | none => env

/-- An array object as a prop: `ref` is the identity of the object, `items` its
present contents. Two values are the same array exactly when their `ref` is the
same; pushing onto an array changes `items` and keeps `ref`, while
`[...old, m]` is an array with another `ref`. -/
structure MessageArray where
  ref : Nat
  items : List Message
  deriving DecidableEq, Repr

/-- The state of a `ChatMessages` instance: `chatMessagesRef.current`, the
dependency `[chatMessages]` of the last render (the identity of that array,
`none` before the first render), the console, and the element last returned. -/
structure Instance where
  current : Option ContainerEle
  deps : Option Nat
  console : List String
  element : Option ChatMessagesElement
  deriving DecidableEq, Repr

/-- The instance before its first render: `useRef(null)`, no dependencies yet. -/
def Instance.fresh : Instance :=
  { current := none, deps := none, console := [], element := none }

/-- The rule of `useEffect(f, [chatMessages])`: the effect runs after the first
render and after every render whose `chatMessages` is not the array of the last
render. React compares the dependency with `Object.is`, that is by identity. -/
def depsChanged (deps : Option Nat) (chatMessages : MessageArray) : Bool :=
  match deps with
  | none => true
  | some last => decide (chatMessages.ref ≠ last)

/-- One render of `ChatMessages` with the prop `chatMessages`. The component
returns its element from the contents of the array. After the commit the ref
holds `dom`, the container element as the browser laid it out (`none` when no
element is attached); then the effect runs when the dependency changed. -/
def renderPass (chatMessages : MessageArray) (dom : Option ContainerEle)
    (inst : Instance) : Instance :=
  let env : EffectEnv := { current := dom, console := inst.console }
  let env := if depsChanged inst.deps chatMessages then scrollEffect env else env
  { current := env.current,
    deps := some chatMessages.ref,
    console := env.console,
    element := some (ChatMessages chatMessages.items) }

/-- The append step: an instance last rendered with the array `old` is rendered
with `next`, a new array that holds the messages of `old` and one more at the
end. -/
inductive AppendStep : Instance → Instance → Prop where
  | append (inst : Instance) (old next : MessageArray) (m : Message)
      (dom : Option ContainerEle)
      (hd : inst.deps = some old.ref)
      (he : inst.element = some (ChatMessages old.items))
      (hn : next.ref ≠ old.ref)
      (hi : next.items = old.items ++ [m]) :
      AppendStep inst (renderPass next dom inst)

/-- The states of an instance: the first render, then any number of appends. -/
inductive Reachable : Instance → Prop where
  | mount (chatMessages : MessageArray) (dom : Option ContainerEle) :
      Reachable (renderPass chatMessages dom Instance.fresh)
  | step {inst next : Instance} (h : Reachable inst) (s : AppendStep inst next) :
      Reachable next

/-- The viewport is at the bottom: a mounted container is at its largest scroll
position, `scrollTop = scrollHeight - clientHeight`. -/
def AtBottom (inst : Instance) : Prop :=
  ∀ c, inst.current = some c → c.scrollTop = c.scrollHeight - c.clientHeight

/-- The claim read to the letter: a mounted container has
`scrollTop = scrollHeight`. -/
def ScrollTopIsScrollHeight (inst : Instance) : Prop :=
  ∀ c, inst.current = some c → c.scrollTop = c.scrollHeight

/-! ## `App.jsx` -/

/-- The argument of `useState` in `App`: the conversation the session starts with. -/
def App.chatMessages : List Message :=
  [ { message := "Hello Chatbot", sender := .string "user", id := "id1" },
    { message := "Hello! How can I help you", sender := .string "robot", id := "id2" },
    { message := "can u get me todays date", sender := .string "user", id := "id3" },
    { message := "Today is October 10, 2023", sender := .string "robot", id := "id4" } ]

/-! ## Helper lemmas -/

theorem strictEq_string_iff (v : JSValue) (s : String) :
    v.strictEq (.string s) = true ↔ v = .string s := by
  cases v <;> simp [JSValue.strictEq]

theorem strictEq_string_false_iff (v : JSValue) (s : String) :
    v.strictEq (.string s) = false ↔ v ≠ .string s := by
  cases v <;> simp [JSValue.strictEq]

/-- The row of a `user` message. -/
theorem ChatMessage_of_user (message : String) :
    ChatMessage message (.string "user") =
      Node.div "chat-message-user"
        [Node.falsy, Node.div "chat-message-text" [Node.text message],
         Node.img Userimage "chat-message-profile"] := by
  simp [ChatMessage, JSValue.strictEq, andAnd]

/-- The row of a `robot` message. -/
theorem ChatMessage_of_robot (message : String) :
    ChatMessage message (.string "robot") =
      Node.div "chat-message-robot"
        [Node.img Robotimage "chat-message-profile",
         Node.div "chat-message-text" [Node.text message], Node.falsy] := by
  simp [ChatMessage, JSValue.strictEq, andAnd]

/-- The row of a message whose sender is neither `user` nor `robot`. -/
theorem ChatMessage_of_other (message : String) (sender : JSValue)
    (hu : sender ≠ .string "user") (hr : sender ≠ .string "robot") :
    ChatMessage message sender =
      Node.div "chat-message-robot"
        [Node.falsy, Node.div "chat-message-text" [Node.text message], Node.falsy] := by
  have h1 := (strictEq_string_false_iff sender "user").mpr hu
  have h2 := (strictEq_string_false_iff sender "robot").mpr hr
  simp [ChatMessage, andAnd, h1, h2]

/-- Every sender is `user`, `robot`, or neither. -/
theorem sender_cases (sender : JSValue) :
    sender = .string "user" ∨ sender = .string "robot" ∨
      (sender ≠ .string "user" ∧ sender ≠ .string "robot") := by
  by_cases hu : sender = .string "user"
  · exact Or.inl hu
  · by_cases hr : sender = .string "robot"
    · exact Or.inr (Or.inl hr)
    · exact Or.inr (Or.inr ⟨hu, hr⟩)

/-- The children of `ChatMessages` are the messages, field by field. -/
theorem ChatMessages_children (chatMessages : List Message) :
    (ChatMessages chatMessages).children =
      chatMessages.map (fun m => { message := m.message, sender := m.sender, key := m.id }) :=
  rfl

/-- The value the effect stores: the largest scroll position. -/
theorem setScrollTop_scrollHeight (c : ContainerEle) :
    c.setScrollTop c.scrollHeight =
      { scrollTop := c.scrollHeight - c.clientHeight,
        scrollHeight := c.scrollHeight,
        clientHeight := c.clientHeight } := by
  simp [ContainerEle.setScrollTop, ContainerEle.maxScrollTop]

/-- What one render leaves when the effect runs. -/
theorem renderPass_of_changed (chatMessages : MessageArray) (dom : Option ContainerEle)
    (inst : Instance) (h : depsChanged inst.deps chatMessages = true) :
    renderPass chatMessages dom inst =
      { current := (scrollEffect { current := dom, console := inst.console }).current,
        deps := some chatMessages.ref,
        console := (scrollEffect { current := dom, console := inst.console }).console,
        element := some (ChatMessages chatMessages.items) } := by
  simp [renderPass, h]

/-- The effect leaves a mounted container at its largest scroll position. -/
theorem scrollEffect_atBottom (env : EffectEnv) (c : ContainerEle)
    (h : (scrollEffect env).current = some c) :
    c.scrollTop = c.scrollHeight - c.clientHeight := by
  unfold scrollEffect at h
  cases hc : env.current with
  | none => simp [hc] at h
  | some e =>
    simp [hc, setScrollTop_scrollHeight] at h
    subst h
    rfl

/-- The dependency changed exactly when the array is another object. -/
theorem depsChanged_some_iff (last : Nat) (chatMessages : MessageArray) :
    depsChanged (some last) chatMessages = true ↔ chatMessages.ref ≠ last := by
  simp [depsChanged]

/-! ## The list view -/

/-- C1: for every list of messages, `ChatMessages` yields one `ChatMessage`
element per message, in the order of the list: the (message, sender, key)
triples of its children are the (message, sender, id) triples of the list, the
number of children and of rendered rows is the length of the list, and the
rendered rows are the messages each passed through `ChatMessage`. -/
theorem ChatMessages_one_row_per_message (chatMessages : List Message) :
    (ChatMessages chatMessages).children.map (fun e => (e.message, e.sender, e.key)) =
        chatMessages.map (fun m => (m.message, m.sender, m.id)) ∧
      (ChatMessages chatMessages).children.length = chatMessages.length ∧
      (renderedRows chatMessages).length = chatMessages.length ∧
      renderedRows chatMessages = chatMessages.map (fun m => ChatMessage m.message m.sender) := by
  refine ⟨?_, ?_, ?_, ?_⟩
  · simp [ChatMessages_children, List.map_map, Function.comp_def]
  · simp [ChatMessages_children]
  · simp [renderedRows, ChatMessages_children]
  · simp [renderedRows, ChatMessages_children, List.map_map, Function.comp_def,
      ChatMessageElement.render]

/-- C2 (Scenario A): the conversation `App` starts with has 4 messages, 2 sent
by the user and 2 by the assistant (whose sender value in `App` is `robot`), in
the order user, robot, user, robot; `ChatMessages` renders 4 rows in that order,
keyed `id1` to `id4`, whose container classes alternate `chat-message-user`,
`chat-message-robot`, the icon after the text in the user rows and before it in
the robot rows, each row being `ChatMessage` of its message and sender. -/
theorem App_initial_conversation_rows :
    App.chatMessages.length = 4 ∧
      (App.chatMessages.filter (fun m => m.sender.strictEq (.string "user"))).length = 2 ∧
      (App.chatMessages.filter (fun m => m.sender.strictEq (.string "robot"))).length = 2 ∧
      App.chatMessages.map (fun m => m.sender) =
        [.string "user", .string "robot", .string "user", .string "robot"] ∧
      (ChatMessages App.chatMessages).children.map (fun e => e.key) =
        ["id1", "id2", "id3", "id4"] ∧
      renderedRows App.chatMessages =
        [ Node.div "chat-message-user"
            [Node.falsy, Node.div "chat-message-text" [Node.text "Hello Chatbot"],
             Node.img Userimage "chat-message-profile"],
          Node.div "chat-message-robot"
            [Node.img Robotimage "chat-message-profile",
             Node.div "chat-message-text" [Node.text "Hello! How can I help you"], Node.falsy],
          Node.div "chat-message-user"
            [Node.falsy, Node.div "chat-message-text" [Node.text "can u get me todays date"],
             Node.img Userimage "chat-message-profile"],
          Node.div "chat-message-robot"
            [Node.img Robotimage "chat-message-profile",
             Node.div "chat-message-text" [Node.text "Today is October 10, 2023"],
             Node.falsy] ] ∧
      (renderedRows App.chatMessages).map Node.className =
        [some "chat-message-user", some "chat-message-robot",
         some "chat-message-user", some "chat-message-robot"] ∧
      (renderedRows App.chatMessages).map (fun r => ((iconsBeforeText r).length, (iconsAfterText r).length)) =
        [(0, 1), (1, 0), (0, 1), (1, 0)] ∧
      renderedRows App.chatMessages =
        App.chatMessages.map (fun m => ChatMessage m.message m.sender) := by
  refine ⟨rfl, ?_, ?_, rfl, rfl, ?_, ?_, ?_, ?_⟩
  · simp [App.chatMessages, JSValue.strictEq]
  · simp [App.chatMessages, JSValue.strictEq]
  · simp [renderedRows, ChatMessages, App.chatMessages, ChatMessageElement.render,
      ChatMessage_of_user, ChatMessage_of_robot]
  · simp [renderedRows, ChatMessages, App.chatMessages, ChatMessageElement.render,
      ChatMessage_of_user, ChatMessage_of_robot, Node.className]
  · simp [renderedRows, ChatMessages, App.chatMessages, ChatMessageElement.render,
      ChatMessage_of_user, ChatMessage_of_robot, iconsBeforeText, iconsAfterText,
      Node.children, Node.isTextDiv, Node.isIcon, List.takeWhile, List.dropWhile]
  · simp [renderedRows, ChatMessages, App.chatMessages, ChatMessageElement.render]

/-- C6: for the empty sequence `ChatMessages` returns its container with no
children: no `ChatMessage` element, no rendered row. -/
theorem ChatMessages_empty :
    ChatMessages [] = { className := "chat-messages-container ", children := [] } ∧
      (ChatMessages []).children.length = 0 ∧
      renderedRows [] = [] ∧
      renderedContainer [] = Node.div "chat-messages-container " [] := by
  refine ⟨rfl, rfl, rfl, rfl⟩

/-- C8: the ids of the conversation `App` starts with are pairwise distinct,
and for every conversation `ChatMessages` gives each row the id of its message as
key: the keys of the rows, in order, are the ids of the messages, one row per
message; so when the ids are pairwise distinct the keys of the rows are
pairwise distinct. -/
theorem ChatMessages_keys_distinct :
    (App.chatMessages.map (fun m => m.id)).Nodup ∧
      App.chatMessages.map (fun m => m.id) = ["id1", "id2", "id3", "id4"] ∧
      (∀ chatMessages : List Message,
        (ChatMessages chatMessages).children.map (fun e => e.key) =
            chatMessages.map (fun m => m.id) ∧
          (ChatMessages chatMessages).children.length = chatMessages.length) ∧
      (∀ chatMessages : List Message,
        (chatMessages.map (fun m => m.id)).Nodup →
          ((ChatMessages chatMessages).children.map (fun e => e.key)).Nodup) := by
  have keys : ∀ chatMessages : List Message,
      (ChatMessages chatMessages).children.map (fun e => e.key) =
        chatMessages.map (fun m => m.id) := by
    intro chatMessages
    simp [ChatMessages_children, List.map_map, Function.comp_def]
  refine ⟨by decide, rfl, ?_, ?_⟩
  · intro chatMessages
    exact ⟨keys chatMessages, by simp [ChatMessages_children]⟩
  · intro chatMessages h
    rw [keys chatMessages]
    exact h

/-- C8 at the conversation `App` starts with: its ids are distinct, the keys of
its four rows are those ids, and they are distinct. -/
theorem ChatMessages_keys_distinct_witness :
    (App.chatMessages.map (fun m => m.id)).Nodup ∧
      (ChatMessages App.chatMessages).children.map (fun e => e.key) =
        ["id1", "id2", "id3", "id4"] ∧
      (ChatMessages App.chatMessages).children.length = 4 ∧
      ((ChatMessages App.chatMessages).children.map (fun e => e.key)).Nodup :=
  ⟨ChatMessages_keys_distinct.1,
   (ChatMessages_keys_distinct.2.2.1 App.chatMessages).1,
   (ChatMessages_keys_distinct.2.2.1 App.chatMessages).2,
   ChatMessages_keys_distinct.2.2.2 App.chatMessages (by decide)⟩

/-! ## The row -/

/-- C3: for every message text `ChatMessage` selects the variant of the row by
sender. A `user` message gets the class `chat-message-user` and its one icon on
one side of the text (after it); an assistant message, whose sender value in the
code is `robot`, gets the class `chat-message-robot` and its one icon on the
other side (before the text). -/
theorem ChatMessage_variant_by_sender (message : String) :
    (ChatMessage message (.string "user")).className = some "chat-message-user" ∧
      iconsAfterText (ChatMessage message (.string "user")) =
        [Node.img Userimage "chat-message-profile"] ∧
      iconsBeforeText (ChatMessage message (.string "user")) = [] ∧
      (ChatMessage message (.string "robot")).className = some "chat-message-robot" ∧
      iconsBeforeText (ChatMessage message (.string "robot")) =
        [Node.img Robotimage "chat-message-profile"] ∧
      iconsAfterText (ChatMessage message (.string "robot")) = [] := by
  rw [ChatMessage_of_user, ChatMessage_of_robot]
  simp [iconsBeforeText, iconsAfterText, Node.children, Node.isIcon, Node.isTextDiv,
    Node.className, List.takeWhile, List.dropWhile]

/-- C4: for every message whose sender is neither `user` nor `robot` (a missing
sender included), `ChatMessage` returns a row: the container has the class of the
non-user row, `chat-message-robot`, the text element carries the message text,
and there is no icon. -/
theorem ChatMessage_unknown_sender (message : String) (sender : JSValue)
    (hu : sender ≠ .string "user") (hr : sender ≠ .string "robot") :
    ChatMessage message sender =
        Node.div "chat-message-robot"
          [Node.falsy, Node.div "chat-message-text" [Node.text message], Node.falsy] ∧
      (ChatMessage message sender).className =
        (ChatMessage message (.string "robot")).className ∧
      textDivs (ChatMessage message sender) =
        [Node.div "chat-message-text" [Node.text message]] ∧
      (ChatMessage message sender).domChildren =
        [Node.div "chat-message-text" [Node.text message]] := by
  rw [ChatMessage_of_other message sender hu hr, ChatMessage_of_robot]
  simp [textDivs, Node.children, Node.isTextDiv, Node.className, Node.domChildren]

/-- C4 at a missing sender (`undefined`) and at the string `assistant`. -/
theorem ChatMessage_unknown_sender_witness :
    (ChatMessage "hello" .undefined =
        Node.div "chat-message-robot"
          [Node.falsy, Node.div "chat-message-text" [Node.text "hello"], Node.falsy]) ∧
      (ChatMessage "hello" (.string "assistant")).className = some "chat-message-robot" :=
  ⟨(ChatMessage_unknown_sender "hello" .undefined (by decide) (by decide)).1,
   ((ChatMessage_unknown_sender "hello" (.string "assistant") (by decide) (by decide)).1).symm ▸
     rfl⟩

/-- C7: `ChatMessage` is a function of (message, sender) alone: equal arguments
give equal rows. The sender touches only the container class and the icons: for
every text and any two senders the text element is the same, it holds the
message text unchanged, and it is the only child the DOM gets besides icons. -/
theorem ChatMessage_pure_text_unchanged (message : String) (s₁ s₂ : JSValue) :
    (∀ (m₁ m₂ : String) (a b : JSValue), m₁ = m₂ → a = b →
        ChatMessage m₁ a = ChatMessage m₂ b) ∧
      textDivs (ChatMessage message s₁) = [Node.div "chat-message-text" [Node.text message]] ∧
      textDivs (ChatMessage message s₁) = textDivs (ChatMessage message s₂) ∧
      (ChatMessage message s₁).domChildren.filter (fun c => !c.isIcon) =
        [Node.div "chat-message-text" [Node.text message]] ∧
      (ChatMessage message s₁).domChildren.filter (fun c => !c.isIcon) =
        (ChatMessage message s₂).domChildren.filter (fun c => !c.isIcon) := by
  have text : ∀ s : JSValue,
      textDivs (ChatMessage message s) = [Node.div "chat-message-text" [Node.text message]] ∧
      (ChatMessage message s).domChildren.filter (fun c => !c.isIcon) =
        [Node.div "chat-message-text" [Node.text message]] := by
    intro s
    rcases sender_cases s with h | h | ⟨hu, hr⟩
    · subst h
      rw [ChatMessage_of_user]
      simp [textDivs, Node.children, Node.isTextDiv, Node.domChildren, Node.isIcon]
    · subst h
      rw [ChatMessage_of_robot]
      simp [textDivs, Node.children, Node.isTextDiv, Node.domChildren, Node.isIcon]
    · rw [ChatMessage_of_other message s hu hr]
      simp [textDivs, Node.children, Node.isTextDiv, Node.domChildren, Node.isIcon]
  refine ⟨?_, (text s₁).1, ?_, (text s₁).2, ?_⟩
  · intro m₁ m₂ a b hm hs
    rw [hm, hs]
  · rw [(text s₁).1, (text s₂).1]
  · rw [(text s₁).2, (text s₂).2]

/-- C9: for every message and sender the row has at most one icon: exactly one,
after the text, iff the sender is `user`; exactly one, before the text, iff the
sender is `robot`; none for every other sender. The container class is
`chat-message-user` iff the sender is `user`, and `chat-message-robot` otherwise. -/
theorem ChatMessage_at_most_one_icon (message : String) (sender : JSValue) :
    (icons (ChatMessage message sender)).length ≤ 1 ∧
      icons (ChatMessage message sender) =
        iconsBeforeText (ChatMessage message sender) ++
          iconsAfterText (ChatMessage message sender) ∧
      ((iconsAfterText (ChatMessage message sender)).length = 1 ↔ sender = .string "user") ∧
      ((iconsBeforeText (ChatMessage message sender)).length = 1 ↔ sender = .string "robot") ∧
      (icons (ChatMessage message sender) = [] ↔
        (sender ≠ .string "user" ∧ sender ≠ .string "robot")) ∧
      ((ChatMessage message sender).className = some "chat-message-user" ↔
        sender = .string "user") ∧
      ((ChatMessage message sender).className = some "chat-message-robot" ↔
        sender ≠ .string "user") := by
  rcases sender_cases sender with h | h | ⟨hu, hr⟩
  · subst h
    rw [ChatMessage_of_user]
    simp [icons, iconsBeforeText, iconsAfterText, Node.children, Node.isIcon, Node.isTextDiv,
      Node.className, List.takeWhile, List.dropWhile]
  · subst h
    rw [ChatMessage_of_robot]
    simp [icons, iconsBeforeText, iconsAfterText, Node.children, Node.isIcon, Node.isTextDiv,
      Node.className, List.takeWhile, List.dropWhile]
  · rw [ChatMessage_of_other message sender hu hr]
    simp [icons, iconsBeforeText, iconsAfterText, Node.children, Node.isIcon, Node.isTextDiv,
      Node.className, List.takeWhile, List.dropWhile, hu, hr]

/-- C10: the icon source of a `user` row is the icon source of a `robot` row
(both names are bound to `../assets/robot.png`), so for every message text the
two rows show the same icon and the same text element; they differ in the
container class and in the order of the children, one being the other reversed. -/
theorem ChatMessage_user_robot_same_icon (message : String) :
    Userimage = Robotimage ∧
      icons (ChatMessage message (.string "user")) =
        icons (ChatMessage message (.string "robot")) ∧
      (icons (ChatMessage message (.string "user"))).map Node.src =
        [some "../assets/robot.png"] ∧
      textDivs (ChatMessage message (.string "user")) =
        textDivs (ChatMessage message (.string "robot")) ∧
      (ChatMessage message (.string "user")).children =
        (ChatMessage message (.string "robot")).children.reverse ∧
      (ChatMessage message (.string "user")).domChildren =
        [Node.div "chat-message-text" [Node.text message],
         Node.img "../assets/robot.png" "chat-message-profile"] ∧
      (ChatMessage message (.string "robot")).domChildren =
        [Node.img "../assets/robot.png" "chat-message-profile",
         Node.div "chat-message-text" [Node.text message]] ∧
      (ChatMessage message (.string "user")).className = some "chat-message-user" ∧
      (ChatMessage message (.string "robot")).className = some "chat-message-robot" := by
  rw [ChatMessage_of_user, ChatMessage_of_robot]
  simp [icons, textDivs, Node.children, Node.isIcon, Node.isTextDiv, Node.className,
    Node.domChildren, Node.src, Userimage, Robotimage]

/-! ## The scroll effect -/

/-- C5 as stated fails, in two ways. (1) After the effect a mounted container of
`scrollHeight` 520 and `clientHeight` 400 has `scrollTop` 120, its largest
scroll position, not 520. (2) When the array of the last render is appended to in
place and given again, the element shows the fifth message but the effect does
not run: the console has only the line of the first render and `scrollTop`
stays 0, above the bottom. -/
theorem scrollTop_not_scrollHeight_and_same_array_skipped :
    renderPass { ref := 1, items := App.chatMessages }
        (some { scrollTop := 0, scrollHeight := 520, clientHeight := 400 }) Instance.fresh =
        { current := some { scrollTop := 120, scrollHeight := 520, clientHeight := 400 },
          deps := some 1,
          console := ["UPDATED"],
          element := some (ChatMessages App.chatMessages) } ∧
      ¬ ScrollTopIsScrollHeight
        (renderPass { ref := 1, items := App.chatMessages }
          (some { scrollTop := 0, scrollHeight := 520, clientHeight := 400 }) Instance.fresh) ∧
      renderPass
          { ref := 1,
            items := App.chatMessages ++
              [{ message := "hello", sender := .string "user", id := "id5" }] }
          (some { scrollTop := 0, scrollHeight := 520, clientHeight := 400 })
          (renderPass { ref := 1, items := App.chatMessages }
            (some { scrollTop := 0, scrollHeight := 400, clientHeight := 400 })
            Instance.fresh) =
        { current := some { scrollTop := 0, scrollHeight := 520, clientHeight := 400 },
          deps := some 1,
          console := ["UPDATED"],
          element := some (ChatMessages (App.chatMessages ++
            [{ message := "hello", sender := .string "user", id := "id5" }])) } ∧
      ¬ AtBottom
        (renderPass
          { ref := 1,
            items := App.chatMessages ++
              [{ message := "hello", sender := .string "user", id := "id5" }] }
          (some { scrollTop := 0, scrollHeight := 520, clientHeight := 400 })
          (renderPass { ref := 1, items := App.chatMessages }
            (some { scrollTop := 0, scrollHeight := 400, clientHeight := 400 })
            Instance.fresh)) := by
  refine ⟨rfl, ?_, rfl, ?_⟩
  · intro h
    have h2 := h { scrollTop := 120, scrollHeight := 520, clientHeight := 400 } rfl
    simp at h2
  · intro h
    have h2 := h { scrollTop := 0, scrollHeight := 520, clientHeight := 400 } rfl
    simp at h2

/-- C5, amended: the effect sets `scrollTop` of a mounted container to its
largest scroll position, `scrollHeight - clientHeight`, and logs; it changes
nothing when the ref is null. It runs after the first render and after a later
render exactly when `chatMessages` is another array than the one of the last
render. So the render after an append that gives a new array shows the appended
message and leaves the container the browser laid out at the bottom (a null ref
stays null); every append step ends with the viewport at the bottom, and so does
every state reached from the first render by such steps. -/
theorem scroll_to_bottom_after_every_new_array :
    (∀ (c : ContainerEle) (console : List String),
        scrollEffect { current := some c, console := console } =
          { current := some { scrollTop := c.scrollHeight - c.clientHeight,
                              scrollHeight := c.scrollHeight,
                              clientHeight := c.clientHeight },
            console := console ++ ["UPDATED"] }) ∧
      (∀ env : EffectEnv, env.current = none → scrollEffect env = env) ∧
      (∀ chatMessages : MessageArray, depsChanged none chatMessages = true) ∧
      (∀ (last : Nat) (chatMessages : MessageArray),
        depsChanged (some last) chatMessages = true ↔ chatMessages.ref ≠ last) ∧
      (∀ (inst : Instance) (old next : MessageArray) (m : Message) (c : ContainerEle),
        inst.deps = some old.ref → next.ref ≠ old.ref → next.items = old.items ++ [m] →
          renderPass next (some c) inst =
            { current := some { scrollTop := c.scrollHeight - c.clientHeight,
                                scrollHeight := c.scrollHeight,
                                clientHeight := c.clientHeight },
              deps := some next.ref,
              console := inst.console ++ ["UPDATED"],
              element := some (ChatMessages (old.items ++ [m])) }) ∧
      (∀ (inst : Instance) (old next : MessageArray) (m : Message),
        inst.deps = some old.ref → next.ref ≠ old.ref → next.items = old.items ++ [m] →
          renderPass next none inst =
            { current := none,
              deps := some next.ref,
              console := inst.console,
              element := some (ChatMessages (old.items ++ [m])) }) ∧
      (∀ inst next : Instance, AppendStep inst next → AtBottom next) ∧
      (∀ inst : Instance, Reachable inst → AtBottom inst) := by
  have changed : ∀ (inst : Instance) (old next : MessageArray),
      inst.deps = some old.ref → next.ref ≠ old.ref →
        depsChanged inst.deps next = true := by
    intro inst old next hd hn
    rw [hd]
    exact (depsChanged_some_iff old.ref next).mpr hn
  have step : ∀ inst next : Instance, AppendStep inst next → AtBottom next := by
    intro inst next hs
    cases hs with
    | append old nxt m dom hd he hn hi =>
      rw [renderPass_of_changed _ _ _ (changed inst old nxt hd hn)]
      intro c hcur
      exact scrollEffect_atBottom _ c hcur
  refine ⟨?_, ?_, ?_, depsChanged_some_iff, ?_, ?_, step, ?_⟩
  · intro c console
    simp [scrollEffect, setScrollTop_scrollHeight]
  · intro env h
    simp [scrollEffect, h]
  · intro chatMessages
    rfl
  · intro inst old next m c hd hn hi
    rw [renderPass_of_changed _ _ _ (changed inst old next hd hn), hi]
    simp [scrollEffect, setScrollTop_scrollHeight]
  · intro inst old next m hd hn hi
    rw [renderPass_of_changed _ _ _ (changed inst old next hd hn), hi]
    simp [scrollEffect]
  · intro inst hr
    induction hr with
    | mount chatMessages dom =>
      have hc : depsChanged Instance.fresh.deps chatMessages = true := rfl
      rw [renderPass_of_changed _ _ _ hc]
      intro c hcur
      exact scrollEffect_atBottom _ c hcur
    | step _ s _ => exact step _ _ s

/-- C5, amended, at a session: the conversation of `App` is rendered into a
container of height 400 that it fills exactly; then a new array with a fifth
message is given and the container, still at 0, has grown to 520: the effect
runs again and leaves `scrollTop = 120 = 520 - 400`. -/
theorem scroll_to_bottom_after_every_new_array_witness :
    renderPass { ref := 1, items := App.chatMessages }
        (some { scrollTop := 0, scrollHeight := 400, clientHeight := 400 }) Instance.fresh =
        { current := some { scrollTop := 0, scrollHeight := 400, clientHeight := 400 },
          deps := some 1,
          console := ["UPDATED"],
          element := some (ChatMessages App.chatMessages) } ∧
      renderPass
          { ref := 2,
            items := App.chatMessages ++
              [{ message := "hello", sender := .string "user", id := "id5" }] }
          (some { scrollTop := 0, scrollHeight := 520, clientHeight := 400 })
          { current := some { scrollTop := 0, scrollHeight := 400, clientHeight := 400 },
            deps := some 1,
            console := ["UPDATED"],
            element := some (ChatMessages App.chatMessages) } =
        { current := some { scrollTop := 120, scrollHeight := 520, clientHeight := 400 },
          deps := some 2,
          console := ["UPDATED", "UPDATED"],
          element := some (ChatMessages (App.chatMessages ++
            [{ message := "hello", sender := .string "user", id := "id5" }])) } ∧
      AtBottom
        (renderPass
          { ref := 2,
            items := App.chatMessages ++
              [{ message := "hello", sender := .string "user", id := "id5" }] }
          (some { scrollTop := 0, scrollHeight := 520, clientHeight := 400 })
          { current := some { scrollTop := 0, scrollHeight := 400, clientHeight := 400 },
            deps := some 1,
            console := ["UPDATED"],
            element := some (ChatMessages App.chatMessages) }) :=
  ⟨rfl,
   scroll_to_bottom_after_every_new_array.2.2.2.2.1
     { current := some { scrollTop := 0, scrollHeight := 400, clientHeight := 400 },
       deps := some 1,
       console := ["UPDATED"],
       element := some (ChatMessages App.chatMessages) }
     { ref := 1, items := App.chatMessages }
     { ref := 2,
       items := App.chatMessages ++
         [{ message := "hello", sender := .string "user", id := "id5" }] }
     { message := "hello", sender := .string "user", id := "id5" }
     { scrollTop := 0, scrollHeight := 520, clientHeight := 400 }
     rfl (by decide) rfl,
   scroll_to_bottom_after_every_new_array.2.2.2.2.2.2.1 _ _
     (AppendStep.append
       { current := some { scrollTop := 0, scrollHeight := 400, clientHeight := 400 },
         deps := some 1,
         console := ["UPDATED"],
         element := some (ChatMessages App.chatMessages) }
       { ref := 1, items := App.chatMessages }
       { ref := 2,
         items := App.chatMessages ++
           [{ message := "hello", sender := .string "user", id := "id5" }] }
       { message := "hello", sender := .string "user", id := "id5" }
       (some { scrollTop := 0, scrollHeight := 520, clientHeight := 400 })
       rfl rfl (by decide) rfl)⟩

end ChatApp
